import Mathlib

/-!
Shallow embedding of the PerpDEXQuant hedge-orchestration engine.

The repository contains two decision/execution loops:
* the CLI loop `main` in `aster_trading.py`, and
* the GUI loop `BootstrapTradingGUI.trading_loop` in `aster_trading_gui_bootstrap.py`.

Both are embedded below as pure functions over the observations a single
cycle makes (prices, funding rate, position snapshots, timestamps).
Machine floats are modelled as rationals; Python exceptions are modelled
with `Except`.
-/

namespace PerpDex

/-- Order side as sent to the venue (`"BUY"` / `"SELL"`). -/
inductive OrderSide
  | BUY
  | SELL
deriving DecidableEq, Repr

/-- Position side as tracked in the UI statuses (`"LONG"` / `"SHORT"` / `"NONE"`). -/
inductive Side
  | LONG
  | SHORT
  | NONE
deriving DecidableEq, Repr

/-- Python exceptions that the embedded fragments can raise. -/
inductive PyError
  | zeroDivision
  | valueError
deriving DecidableEq, Repr

/-- Python's built-in `round` to the nearest integer, ties to the even
integer (banker's rounding), over exact rationals. -/
def pyRoundInt (q : ℚ) : ℤ :=
  if q - ⌊q⌋ < 1/2 then ⌊q⌋
  else if 1/2 < q - ⌊q⌋ then ⌊q⌋ + 1
  else if ⌊q⌋ % 2 = 0 then ⌊q⌋ else ⌊q⌋ + 1

/-- Python's `round(q, 3)`: round to three decimal places. -/
def round3 (q : ℚ) : ℚ := (pyRoundInt (q * 1000) : ℚ) / 1000

/-- Python's `int(q)` for a real argument: truncation toward zero. -/
def pyInt (q : ℚ) : ℤ := if 0 ≤ q then ⌊q⌋ else ⌈q⌉

/-- Python's `/` on numbers: raises `ZeroDivisionError` on a zero divisor. -/
def pyDiv (a b : ℚ) : Except PyError ℚ :=
  if b = 0 then .error .zeroDivision else .ok (a / b)

/-- `AsterDexAPI.get_current_price` returns `0.0` on any parse/network
failure; this is its documented failure value. -/
def get_current_price_failure : ℚ := 0

/-- `AsterDexAPI.calculate_quantity_from_usdt` (aster_trading.py 570-579),
with the internally fetched `get_current_price` result passed in as
`current_price`:
`quantity = usdt_amount / current_price`, then `quantity = max(0.001, quantity)`,
then `final_quantity = round(quantity, 3)`. -/
def calculate_quantity_from_usdt (current_price usdt_amount : ℚ) : Except PyError ℚ :=
  match pyDiv usdt_amount current_price with
  | .error e => .error e
  | .ok quantity => .ok (round3 (max (1/1000) quantity))

/-- The quantity formula as the spec words it (§8):
`max(0.001, round(usdtAmount/price, 3))` — the floor applied after rounding.
Kept separate from `calculate_quantity_from_usdt` (which rounds after the
floor) so the two can be compared. -/
def spec_quantity (price usdt_amount : ℚ) : ℚ :=
  max (1/1000) (round3 (usdt_amount / price))

section RoundingLemmas

theorem pyRoundInt_le (q : ℚ) : (pyRoundInt q : ℚ) ≤ q + 1/2 := by
  have h1 : (⌊q⌋ : ℚ) ≤ q := Int.floor_le q
  have h2 : q < ⌊q⌋ + 1 := Int.lt_floor_add_one q
  unfold pyRoundInt
  split_ifs with hf hg hn <;> push_cast <;> linarith

theorem le_pyRoundInt (q : ℚ) : q - 1/2 ≤ (pyRoundInt q : ℚ) := by
  have h1 : (⌊q⌋ : ℚ) ≤ q := Int.floor_le q
  have h2 : q < ⌊q⌋ + 1 := Int.lt_floor_add_one q
  unfold pyRoundInt
  split_ifs with hf hg hn <;> push_cast <;> linarith

theorem pyRoundInt_one : pyRoundInt 1 = 1 := by norm_num [pyRoundInt]

theorem round3_ge_of_ge (q : ℚ) (h : 1/1000 ≤ q) : 1/1000 ≤ round3 q := by
  have hb : q * 1000 - 1/2 ≤ (pyRoundInt (q * 1000) : ℚ) := le_pyRoundInt _
  have h1 : (1:ℚ) ≤ q * 1000 := by linarith
  have hpos : (0:ℤ) < pyRoundInt (q * 1000) := by
    have : (0:ℚ) < (pyRoundInt (q * 1000) : ℚ) := by linarith
    exact_mod_cast this
  have hint : (1:ℤ) ≤ pyRoundInt (q * 1000) := hpos
  unfold round3
  have : (1:ℚ) ≤ (pyRoundInt (q * 1000) : ℚ) := by exact_mod_cast hint
  linarith

theorem round3_le_of_lt (q : ℚ) (h : q < 1/1000) : round3 q ≤ 1/1000 := by
  have hb : (pyRoundInt (q * 1000) : ℚ) ≤ q * 1000 + 1/2 := pyRoundInt_le _
  have h1 : q * 1000 < 1 := by linarith
  have hint : pyRoundInt (q * 1000) ≤ 1 := by
    by_contra hc
    push_neg at hc
    have : (2:ℚ) ≤ (pyRoundInt (q * 1000) : ℚ) := by exact_mod_cast hc
    linarith
  unfold round3
  have : (pyRoundInt (q * 1000) : ℚ) ≤ 1 := by exact_mod_cast hint
  linarith

theorem round3_min : round3 (1/1000) = 1/1000 := by
  unfold round3
  norm_num [pyRoundInt_one]

/-- Rounding to three decimals commutes with clamping at the 0.001 floor. -/
theorem round3_max_comm (x : ℚ) :
    round3 (max (1/1000) x) = max (1/1000) (round3 x) := by
  rcases le_or_lt (1/1000) x with hx | hx
  · rw [max_eq_right hx, max_eq_right (round3_ge_of_ge x hx)]
  · rw [max_eq_left hx.le, round3_min, max_eq_left (round3_le_of_lt x hx)]

end RoundingLemmas

/-! ### The decision cycle of the two trading loops -/

/-- The one action a single decision cycle settles on. Constructors mirror
the branches of the two loops; `raisedError` stands for an exception that
escapes to the loop's `except` handler. -/
inductive Decision
  | skipInvalidPrice
  | repair (leg1 leg2 : Option (OrderSide × ℚ))
  | skipResidual
  | holdNotional
  | openHedge (side1 side2 : OrderSide) (qty : ℚ)
  | closeHedge (side1 : OrderSide) (qty1 : ℚ) (side2 : OrderSide) (qty2 : ℚ)
  | hold
  | raisedError (e : PyError)
deriving DecidableEq, Repr

/-- The side of a market order that flattens a signed position amount:
`"SELL" if pos_amt > 0 else "BUY"`. -/
def closingSide (amt : ℚ) : OrderSide := if 0 < amt then .SELL else .BUY

/-- Shared loop configuration: `usdt_amount` and `wait_seconds` from the
config file. -/
structure LoopCfg where
  usdt_amount : ℚ
  wait_seconds : ℤ
deriving DecidableEq, Repr

/-- What one GUI-loop cycle observes (aster_trading_gui_bootstrap.py
`trading_loop`): the loop's fetched price, the funding rate, the
`positionAmt` of the first record of each account's position fetch
(`none` when the fetch fails or returns an empty list), and the price
fetched inside `calculate_quantity_from_usdt`. -/
structure GuiObs where
  price : ℚ
  fundingRate : ℚ
  fetch1 : Option ℚ
  fetch2 : Option ℚ
  qtyPrice : ℚ
deriving DecidableEq, Repr

/-- One cycle of `BootstrapTradingGUI.trading_loop`
(aster_trading_gui_bootstrap.py 1104-1300), as the decision it settles on.
`openTime` is `self.stats["position_open_time"]`; Python truthiness of that
field is modelled by comparing `openTime.getD 0` with `0`. -/
def decideGUI (cfg : LoopCfg) (openTime : Option ℚ) (now : ℚ) (o : GuiObs) : Decision :=
  if o.price ≤ 0 then .skipInvalidPrice
  else
    if ¬ ((o.fetch1.getD 0 ≠ 0) ↔ (o.fetch2.getD 0 ≠ 0)) then
      .repair
        (if o.fetch1.getD 0 ≠ 0 then
          some (closingSide (o.fetch1.getD 0), |o.fetch1.getD 0|) else none)
        (if o.fetch2.getD 0 ≠ 0 then
          some (closingSide (o.fetch2.getD 0), |o.fetch2.getD 0|) else none)
    else if ¬ (o.fetch1.getD 0 ≠ 0 ∧ o.fetch2.getD 0 ≠ 0) then
      if o.fetch1.getD 0 ≠ 0 ∨ o.fetch2.getD 0 ≠ 0 then .skipResidual
      else
        match calculate_quantity_from_usdt o.qtyPrice cfg.usdt_amount with
        | .error e => .raisedError e
        | .ok quantity =>
          if quantity * o.price < 5 then .holdNotional
          else if 0 < o.fundingRate then .openHedge .SELL .BUY quantity
          else .openHedge .BUY .SELL quantity
    else
      if openTime.getD 0 ≠ 0 then
        if cfg.wait_seconds ≤ pyInt (now - openTime.getD 0) then
          if o.fetch1.getD 0 ≠ 0 ∧ o.fetch2.getD 0 ≠ 0 then
            .closeHedge (closingSide (o.fetch1.getD 0)) |o.fetch1.getD 0|
                        (closingSide (o.fetch2.getD 0)) |o.fetch2.getD 0|
          else .hold
        else .hold
      else .hold

/-- What one CLI-loop cycle observes (aster_trading.py `main`): the loop's
fetched price and funding rate, both accounts' UI status snapshots
(`position_side` and `quantity`), and the price fetched inside
`calculate_quantity_from_usdt`. The loop reads only account 1's snapshot;
account 2's is carried here because the cycle has it available. -/
structure CliObs where
  price : ℚ
  fundingRate : ℚ
  side1 : Side
  qty1 : ℚ
  side2 : Side
  qty2 : ℚ
  qtyPrice : ℚ
deriving DecidableEq, Repr

/-- One cycle of the CLI loop in `main` (aster_trading.py 1311-1495), per
account pair, as the decision it settles on. `openTime` is
`ui.stats["position_open_time"]`, checked with `is not None`. -/
def decideCLI (cfg : LoopCfg) (openTime : Option ℚ) (now : ℚ) (o : CliObs) : Decision :=
  if o.side1 = .NONE then
    match calculate_quantity_from_usdt o.qtyPrice cfg.usdt_amount with
    | .error e => .raisedError e
    | .ok quantity =>
      if quantity * o.price < 5 then .holdNotional
      else if 0 < o.fundingRate then .openHedge .SELL .BUY quantity
      else .openHedge .BUY .SELL quantity
  else
    if cfg.wait_seconds ≤ (match openTime with | some t => pyInt (now - t) | none => 0)
       ∨ ((o.side1 = .LONG ∧ 0 < o.fundingRate) ∨ (o.side1 = .SHORT ∧ o.fundingRate < 0)) then
      if o.qty1 ≤ 0 then .hold
      else if o.side1 = .LONG then .closeHedge .SELL o.qty1 .BUY o.qty1
      else .closeHedge .BUY o.qty1 .SELL o.qty1
    else .hold

/-! ### State updates on a successful hedge open -/

/-- One account's in-memory status projection (`account_status` /
`ui.account_statuses` entry: the fields the trading loops touch). -/
structure AccountStatus where
  position_side : Side
  quantity : ℚ
  entry_price : ℚ
  unrealized_pnl : ℚ
deriving DecidableEq, Repr

/-- The GUI loop's shared stats fields touched by the open/close paths. -/
structure GuiStats where
  trade_count : ℕ
  total_volume_usdt : ℚ
  position_open_time : Option ℚ
  last_trade_time : Option ℚ
deriving DecidableEq, Repr

/-- The GUI coordinator's whole mutable state as the loop sees it. -/
structure GuiState where
  stats : GuiStats
  st1 : AccountStatus
  st2 : AccountStatus
deriving DecidableEq, Repr

/-- The `result1 and result2` success branch of the GUI open path
(aster_trading_gui_bootstrap.py 1200-1216 for positive funding,
1238-1253 for non-positive): bump the counter, add `quantity *
current_price * 2` to cumulative volume, stamp open/last-trade times, and
write both position projections immediately. -/
def guiOpenSuccess (s : GuiState) (fundingRate quantity price now : ℚ) : GuiState :=
  { stats :=
      { trade_count := s.stats.trade_count + 1
        total_volume_usdt := s.stats.total_volume_usdt + quantity * price * 2
        position_open_time := some now
        last_trade_time := some now }
    st1 := { s.st1 with
      position_side := if 0 < fundingRate then .SHORT else .LONG
      quantity := quantity
      entry_price := price }
    st2 := { s.st2 with
      position_side := if 0 < fundingRate then .LONG else .SHORT
      quantity := quantity
      entry_price := price } }

/-- The GUI loop's close-success branch (1283-1291): clear `open_time` and
zero both projections. -/
def guiCloseSuccess (s : GuiState) : GuiState :=
  { stats := { s.stats with position_open_time := none }
    st1 := { s.st1 with
      position_side := .NONE, quantity := 0, entry_price := 0, unrealized_pnl := 0 }
    st2 := { s.st2 with
      position_side := .NONE, quantity := 0, entry_price := 0, unrealized_pnl := 0 } }

/-- The CLI UI's stats record (`TradingUI.stats`), the fields
`update_stats` touches. -/
structure CliStats where
  trade_count : ℕ
  current_funding_rate : ℚ
  last_trade_time : Option ℚ
  symbol : String
  leverage : ℕ
  wait_seconds : ℤ
  last_order_price : ℚ
  total_volume : ℚ
  total_volume_usdt : ℚ
  initial_total_balance : ℚ
  position_open_time : Option ℚ
deriving DecidableEq, Repr

/-- `TradingUI.update_stats` (aster_trading.py 161-190). `now` stands for
the wall-clock reading used for the last-trade stamp and, when
`position_opened`, for `position_open_time`; `initialBalanceSum` is the sum
of the accounts' initial balances read when the initial total is first
filled in. -/
def update_stats (s : CliStats) (funding_rate : ℚ) (symbol : String) (leverage : ℕ)
    (wait_seconds : ℤ) (last_order_price volume : ℚ) (position_opened : Bool)
    (now initialBalanceSum : ℚ) : CliStats :=
  let s1 : CliStats :=
    { s with
      trade_count := s.trade_count + 1
      current_funding_rate := funding_rate
      last_trade_time := some now
      symbol := symbol
      leverage := leverage
      wait_seconds := wait_seconds
      last_order_price := last_order_price
      total_volume := s.total_volume + volume
      total_volume_usdt := s.total_volume_usdt + volume * last_order_price }
  let s2 : CliStats :=
    if position_opened then { s1 with position_open_time := some now } else s1
  if s2.initial_total_balance = 0 then
    { s2 with initial_total_balance := initialBalanceSum }
  else s2

/-! ### Order placement and position closing -/

/-- A value placed in the request parameter dict. -/
inductive ParamValue
  | str (s : String)
  | rat (q : ℚ)
  | int (i : ℤ)
deriving DecidableEq, Repr

/-- The string the venue receives for an order side. -/
def orderSideStr : OrderSide → String
  | .BUY => "BUY"
  | .SELL => "SELL"

/-- `AsterDexAPI.place_order` (aster_trading.py 581-619), as the request
parameter dict it builds (insertion order preserved). Raises `ValueError`
on `quantity <= 0` before any network activity. The `timeInForce` entry is
added only for `order_type == "LIMIT"` with a truthy `time_in_force`
(Python truthiness: `none` and the empty string are falsy). `timestamp`,
`recv_window` and `signature` stand for `self._get_timestamp()`,
`self.recv_window` and the computed HMAC signature. -/
def place_order (symbol : String) (side : OrderSide) (order_type : String)
    (quantity : ℚ) (position_side : String) (time_in_force : Option String)
    (timestamp : ℤ) (recv_window : ℕ) (signature : String) :
    Except PyError (List (String × ParamValue)) :=
  if quantity ≤ 0 then .error .valueError
  else
    .ok
      ([("symbol", .str symbol), ("side", .str (orderSideStr side)),
        ("type", .str order_type), ("quantity", .rat quantity),
        ("positionSide", .str position_side),
        ("timestamp", .int timestamp), ("recvWindow", .int recv_window)]
       ++ (if order_type = "LIMIT" ∧ time_in_force.getD "" ≠ "" then
             [("timeInForce", .str (time_in_force.getD ""))] else [])
       ++ [("signature", .str signature)])

/-- `AsterDexAPI.close_position` (aster_trading.py 621-626): flips the
side and delegates to `place_order`. The function accepts a `reduce_only`
argument (default `True`) but never forwards it. -/
def close_position (symbol : String) (side : OrderSide) (order_type : String)
    (quantity : ℚ) (position_side : String) (reduce_only : Bool)
    (timestamp : ℤ) (recv_window : ℕ) (signature : String) :
    Except PyError (List (String × ParamValue)) :=
  place_order symbol (if side = .BUY then .SELL else .BUY) order_type quantity
    position_side none timestamp recv_window signature

/-! ### `close_all_positions` -/

/-- A raw position record as `close_all_positions` probes it: the first of
the keys `positionAmt`, `quantity`, `qty` that is present wins; all absent
means amount `0`. -/
structure PositionRecord where
  positionAmt : Option ℚ
  quantityKey : Option ℚ
  qtyKey : Option ℚ
deriving DecidableEq, Repr

/-- The key-probing in `close_all_positions` (aster_trading.py 791-798). -/
def extractPositionAmt (p : PositionRecord) : ℚ :=
  match p.positionAmt with
  | some a => a
  | none =>
    match p.quantityKey with
    | some a => a
    | none =>
      match p.qtyKey with
      | some a => a
      | none => 0

/-- What `close_all_positions` returns. -/
inductive CloseAllResult
  | successNoPosition
  | orderResult (orderId : ℕ)
  | failed
deriving DecidableEq, Repr

/-- The environment one run of `close_all_positions` interacts with:
per-attempt results of `get_position_info` (`none` models an empty list or
error response) and of `place_order` (`none` models a rejected or failed
order; `some none` a response dict carrying neither `orderId` nor
`code`). -/
structure CloseAllEnv where
  fetches : ℕ → Option PositionRecord
  places : ℕ → Option (Option ℕ)

/-- A market close order submitted by `close_all_positions`: its side and
quantity. -/
abbrev SubmittedOrder := OrderSide × ℚ

/-- The `for attempt in range(max_retries)` loop of
`AsterDexAPI.close_all_positions` (aster_trading.py 770-846) with
`max_retries = 3`, collecting every order it submits. -/
def close_all_loop (env : CloseAllEnv) (attempt : ℕ) (acc : List SubmittedOrder) :
    CloseAllResult × List SubmittedOrder :=
  if h : 3 ≤ attempt then (.failed, acc)
  else
    match env.fetches attempt with
    | none =>
      if attempt < 2 then close_all_loop env (attempt + 1) acc
      else (.failed, acc)
    | some record =>
      if extractPositionAmt record = 0 then (.successNoPosition, acc)
      else
        let order : SubmittedOrder :=
          (if 0 < extractPositionAmt record then .SELL else .BUY,
           |extractPositionAmt record|)
        match env.places attempt with
        | some (some oid) => (.orderResult oid, acc ++ [order])
        | _ => close_all_loop env (attempt + 1) (acc ++ [order])
termination_by 3 - attempt
decreasing_by all_goals omega

/-- `AsterDexAPI.close_all_positions`, run from the first attempt. -/
def close_all_positions (env : CloseAllEnv) : CloseAllResult × List SubmittedOrder :=
  close_all_loop env 0 []

/-! ### Time synchronization -/

/-- The `AsterDexAPI` fields `_get_server_time` / `_get_timestamp` read and
write: `time_offset` (ms), `last_time_sync` (seconds, `0` before the first
sync) and the `server_time_warned` de-duplication flag. -/
structure ApiTimeState where
  time_offset : ℤ
  last_time_sync : ℚ
  server_time_warned : Bool
deriving DecidableEq, Repr

/-- Result of one call into the time code: the returned millisecond value,
the updated state, and how many warning lines the call printed. -/
structure TsResult where
  value : ℤ
  state : ApiTimeState
  warnings : ℕ
deriving DecidableEq, Repr

/-- `AsterDexAPI._get_server_time` (aster_trading.py 243-264). `localSec`
and `localMs` are the local clock readings the call makes (`time.time()`
and `int(time.time() * 1000)`); `response` is the fetched `serverTime`
(`none` models a non-200/empty/raising request — both failure branches
behave alike up to the warning text). On success the offset and sync stamp
are updated and the warning flag is reset; on failure a warning is printed
unless already warned, and local time plus the cached offset is used. -/
def get_server_time (st : ApiTimeState) (localSec : ℚ) (localMs : ℤ)
    (response : Option ℤ) : TsResult :=
  match response with
  | some serverTime =>
    { value := serverTime
      state :=
        { time_offset := serverTime - localMs
          last_time_sync := localSec
          server_time_warned := false }
      warnings := 0 }
  | none =>
    { value := localMs + st.time_offset
      state := { st with server_time_warned := true }
      warnings := if st.server_time_warned then 0 else 1 }

/-- The skew check of `_get_timestamp` (aster_trading.py 273-281), applied
to the result `r` of the `_get_server_time` call: if the refreshed value
differs from local time by more than 60000 ms, discard it, warn unless the
flag is set, and return local time; otherwise return the server time. -/
def timestampSkewCheck (r : TsResult) (localMs : ℤ) : TsResult :=
  if 60000 < |r.value - localMs| then
    if r.state.server_time_warned then
      { value := localMs, state := r.state, warnings := r.warnings }
    else
      { value := localMs
        state := { r.state with server_time_warned := true }
        warnings := r.warnings + 1 }
  else
    { value := r.value, state := r.state, warnings := r.warnings }

/-- `AsterDexAPI._get_timestamp` (aster_trading.py 266-288). The call's
local-clock readings are modelled as one instant (`localSec`, `localMs`).
Every 300 s (or before the first sync) it refreshes via `_get_server_time`
and runs the skew check on the result; between syncs it serves
`local + cached offset`. -/
def get_timestamp (st : ApiTimeState) (localSec : ℚ) (localMs : ℤ)
    (response : Option ℤ) : TsResult :=
  if 300 < localSec - st.last_time_sync ∨ st.last_time_sync = 0 then
    timestampSkewCheck (get_server_time st localSec localMs response) localMs
  else
    { value := localMs + st.time_offset, state := st, warnings := 0 }

/-! ## Claims -/

/-- C4: for every price > 0 and usdtAmount, `calculate_quantity_from_usdt`
returns `max(0.001, round(usdtAmount/price, 3))` — the USDT amount divided
by the price, rounded to 3 decimals, floored at 0.001. (The source rounds
after flooring; the two orders of operations agree.) -/
theorem C4_quantity_formula (price usdt : ℚ) (hp : 0 < price) :
    calculate_quantity_from_usdt price usdt = .ok (spec_quantity price usdt) := by
  unfold calculate_quantity_from_usdt spec_quantity pyDiv
  rw [if_neg hp.ne']
  simp only [round3_max_comm]

theorem C4_witness :
    (0:ℚ) < 3000 ∧
      calculate_quantity_from_usdt 3000 300 = .ok (spec_quantity 3000 300) :=
  ⟨by norm_num, C4_quantity_formula 3000 300 (by norm_num)⟩

/-- C10: `calculate_quantity_from_usdt` divides by the fetched price with
no zero guard; whenever `get_current_price` returns `0.0` (its documented
failure value) the division raises instead of producing a quantity. -/
theorem C10_division_unguarded (usdt : ℚ) :
    calculate_quantity_from_usdt get_current_price_failure usdt
      = .error .zeroDivision := by
  unfold calculate_quantity_from_usdt pyDiv get_current_price_failure
  simp

/-- C5: `close_all_positions` on an account whose observed position
quantity is zero returns the success result and submits no order. -/
theorem C5_close_all_flat_idempotent (env : CloseAllEnv) (record : PositionRecord)
    (hf : env.fetches 0 = some record) (h0 : extractPositionAmt record = 0) :
    close_all_positions env = (.successNoPosition, []) := by
  unfold close_all_positions
  rw [close_all_loop]
  simp [hf, h0]

/-- A run environment whose first position fetch observes a flat account. -/
def flatCloseEnv : CloseAllEnv :=
  ⟨fun _ => some ⟨some 0, none, none⟩, fun _ => none⟩

theorem C5_witness :
    flatCloseEnv.fetches 0 = some ⟨some 0, none, none⟩
    ∧ extractPositionAmt ⟨some 0, none, none⟩ = 0
    ∧ close_all_positions flatCloseEnv = (.successNoPosition, []) :=
  ⟨rfl, rfl, C5_close_all_flat_idempotent flatCloseEnv ⟨some 0, none, none⟩ rfl rfl⟩

/-- C9: the closing order built by `close_position` never carries a
`reduceOnly` entry — the `reduce_only` argument its signature and docstring
promise to use is silently dropped, so the result is identical whichever
flag is passed. This contradicts both the claim and the function's own
documentation (`使用reduceOnly确保只减仓`). -/
theorem C9_close_order_lacks_reduce_only (symbol : String) (side : OrderSide)
    (order_type : String) (quantity : ℚ) (position_side : String) (ro : Bool)
    (ts : ℤ) (rwind : ℕ) (sig : String) (params : List (String × ParamValue))
    (h : close_position symbol side order_type quantity position_side ro ts rwind sig
          = .ok params) :
    "reduceOnly" ∉ params.map Prod.fst
    ∧ close_position symbol side order_type quantity position_side true ts rwind sig
      = close_position symbol side order_type quantity position_side false ts rwind sig := by
  refine ⟨?_, rfl⟩
  unfold close_position place_order at h
  simp only [Option.getD_none, ne_eq, not_true_eq_false, and_false, if_false,
    List.append_nil] at h
  split_ifs at h
  all_goals
    first
      | exact Except.noConfusion h
      | (simp only [Except.ok.injEq] at h
         subst h
         simp)

/-- Loop configuration used by the concrete cycles below: 300 USDT per
leg, 60-second hold. -/
def cfg0 : LoopCfg := ⟨300, 60⟩

/-- A GUI cycle observation: price 3000, funding +0.0001, both accounts
flat, quantity fetch sees the same price. -/
def guiOpenPosObs : GuiObs := ⟨3000, 1/10000, some 0, some 0, 3000⟩

/-- A CLI cycle observation: price 3000, funding −0.0001, both snapshots
flat. -/
def cliOpenNegObs : CliObs := ⟨3000, -1/10000, .NONE, 0, .NONE, 0, 3000⟩

/-- C2: whenever either loop opens a hedge, a strictly positive funding
rate gives account 1 the SELL leg and account 2 the BUY leg, and a
non-positive funding rate gives the reverse. -/
theorem C2_direction_law (cfg : LoopCfg) (ot : Option ℚ) (now : ℚ)
    (og : GuiObs) (oc : CliObs) (s1 s2 t1 t2 : OrderSide) (q q' : ℚ)
    (hg : decideGUI cfg ot now og = .openHedge s1 s2 q)
    (hc : decideCLI cfg ot now oc = .openHedge t1 t2 q') :
    (s1 = (if 0 < og.fundingRate then .SELL else .BUY)
      ∧ s2 = (if 0 < og.fundingRate then .BUY else .SELL))
    ∧ (t1 = (if 0 < oc.fundingRate then .SELL else .BUY)
      ∧ t2 = (if 0 < oc.fundingRate then .BUY else .SELL)) := by
  constructor
  · unfold decideGUI at hg
    rcases hcalc : calculate_quantity_from_usdt og.qtyPrice cfg.usdt_amount with e | qv <;>
      simp only [hcalc] at hg <;>
      split_ifs at hg <;>
      first
        | exact Decision.noConfusion hg
        | (injection hg with e1 e2 e3
           subst e1
           subst e2
           simp [*])
  · unfold decideCLI at hc
    rcases hcalc : calculate_quantity_from_usdt oc.qtyPrice cfg.usdt_amount with e | qv <;>
      simp only [hcalc] at hc <;>
      split_ifs at hc <;>
      first
        | exact Decision.noConfusion hc
        | (injection hc with e1 e2 e3
           subst e1
           subst e2
           simp [*])

theorem C2_witness :
    ((OrderSide.SELL = if 0 < guiOpenPosObs.fundingRate then OrderSide.SELL else .BUY)
      ∧ (OrderSide.BUY = if 0 < guiOpenPosObs.fundingRate then OrderSide.BUY else .SELL))
    ∧ ((OrderSide.BUY = if 0 < cliOpenNegObs.fundingRate then OrderSide.SELL else .BUY)
      ∧ (OrderSide.SELL = if 0 < cliOpenNegObs.fundingRate then OrderSide.BUY else .SELL)) :=
  C2_direction_law cfg0 none 0 guiOpenPosObs cliOpenNegObs .SELL .BUY .BUY .SELL
    (1/10) (1/10)
    (by norm_num [decideGUI, guiOpenPosObs, cfg0, calculate_quantity_from_usdt,
      pyDiv, round3, pyRoundInt])
    (by norm_num [decideCLI, cliOpenNegObs, cfg0, calculate_quantity_from_usdt,
      pyDiv, round3, pyRoundInt])

theorem C9_witness :
    "reduceOnly" ∉
        (([("symbol", ParamValue.str "ETHUSDT"), ("side", .str "SELL"),
           ("type", .str "MARKET"), ("quantity", .rat 1),
           ("positionSide", .str "BOTH"), ("timestamp", .int 0),
           ("recvWindow", .int 5000), ("signature", .str "sig")] :
          List (String × ParamValue)).map Prod.fst)
    ∧ close_position "ETHUSDT" .BUY "MARKET" 1 "BOTH" true 0 5000 "sig"
      = close_position "ETHUSDT" .BUY "MARKET" 1 "BOTH" false 0 5000 "sig" :=
  C9_close_order_lacks_reduce_only "ETHUSDT" .BUY "MARKET" 1 "BOTH" true 0 5000 "sig" _
    (by norm_num [close_position, place_order, orderSideStr])

/-- C1 counterexample: a CLI decision cycle observing single-sided
exposure — account 1's snapshot `NONE`, account 2's `SHORT` 0.5 — opens a
fresh hedge on both accounts instead of emitting a repair; the CLI loop of
`aster_trading.py` has no single-sided check at all. -/
theorem C1_counterexample :
    decideCLI cfg0 none 0 ⟨3000, 1/10000, .NONE, 0, .SHORT, 1/2, 3000⟩
      = .openHedge .SELL .BUY (1/10) := by
  norm_num [decideCLI, cfg0, calculate_quantity_from_usdt, pyDiv, round3, pyRoundInt]

/-- C1 (amended): in the GUI loop, whenever the price is valid and exactly
one account shows a nonzero position, the cycle emits `Repair` (flattening
the single open side, no action on the flat one) before any open, close or
hold is considered. The CLI loop performs no such check: its decision
ignores account 2's snapshot entirely and never emits `Repair`. -/
theorem C1_amended_repair_priority (cfg : LoopCfg) (ot : Option ℚ) (now : ℚ)
    (o : GuiObs) (oc : CliObs)
    (hp : ¬ o.price ≤ 0)
    (hss : ¬ ((o.fetch1.getD 0 ≠ 0) ↔ (o.fetch2.getD 0 ≠ 0))) :
    decideGUI cfg ot now o =
      .repair
        (if o.fetch1.getD 0 ≠ 0 then
          some (closingSide (o.fetch1.getD 0), |o.fetch1.getD 0|) else none)
        (if o.fetch2.getD 0 ≠ 0 then
          some (closingSide (o.fetch2.getD 0), |o.fetch2.getD 0|) else none)
    ∧ (∀ s2 q2, decideCLI cfg ot now { oc with side2 := s2, qty2 := q2 }
        = decideCLI cfg ot now oc)
    ∧ (∀ l1 l2, decideCLI cfg ot now oc ≠ .repair l1 l2) := by
  refine ⟨?_, fun s2 q2 => rfl, ?_⟩
  · unfold decideGUI
    rw [if_neg hp, if_pos hss]
  · intro l1 l2 hcontra
    unfold decideCLI at hcontra
    rcases hcalc : calculate_quantity_from_usdt oc.qtyPrice cfg.usdt_amount with e | qv <;>
      simp only [hcalc] at hcontra <;>
      split_ifs at hcontra

theorem C1_witness :
    decideGUI cfg0 none 0 ⟨3000, 1/10000, some (1/2), some 0, 3000⟩
      = .repair (some (.SELL, 1/2)) none
    ∧ (∀ s2 q2,
        decideCLI cfg0 none 0 { cliOpenNegObs with side2 := s2, qty2 := q2 }
          = decideCLI cfg0 none 0 cliOpenNegObs)
    ∧ (∀ l1 l2, decideCLI cfg0 none 0 cliOpenNegObs ≠ .repair l1 l2) := by
  have h := C1_amended_repair_priority cfg0 none 0
    ⟨3000, 1/10000, some (1/2), some 0, 3000⟩ cliOpenNegObs
    (by norm_num) (by norm_num)
  refine ⟨?_, h.2.1, h.2.2⟩
  rw [h.1]
  norm_num [closingSide]

/-- A GUI cycle with the hedge open and funding flipped against account
1's LONG leg: account 1 holds +0.1, account 2 −0.1, funding +0.0001. -/
def flipHoldObs : GuiObs := ⟨3000, 1/10000, some (1/10), some (-(1/10)), 3000⟩

/-- A CLI cycle with account 1 holding SHORT 0.1 under positive funding
(not the paying side, so no funding-flip exit). -/
def heldShortObs : CliObs := ⟨3000, 1/10000, .SHORT, 1/10, .LONG, 1/10, 3000⟩

/-- C3 counterexample: GUI cycle at 30 of 60 wait seconds, hedge open with
account 1 LONG while funding is positive — the claimed funding-flip early
exit demands `CloseHedge`, but the GUI loop emits `Hold`: it closes on the
timer alone. -/
theorem C3_counterexample :
    decideGUI cfg0 (some 1000) 1030 flipHoldObs = .hold
    ∧ pyInt (1030 - 1000) < cfg0.wait_seconds
    ∧ (0:ℚ) < flipHoldObs.fundingRate ∧ (0:ℚ) < flipHoldObs.fetch1.getD 0 := by
  refine ⟨?_, by norm_num [pyInt, cfg0], by norm_num [flipHoldObs], by norm_num [flipHoldObs]⟩
  norm_num [decideGUI, cfg0, flipHoldObs, pyInt]

/-- C3 (amended): with a hedge open and `open_time = T`, the CLI loop
emits `CloseHedge` exactly when the elapsed hold time reaches
`wait_seconds` or the held side is on the paying side of funding, else
`Hold`; the GUI loop emits `CloseHedge` exactly when the elapsed hold time
reaches `wait_seconds` — it has no funding-flip early exit. Both loops
close at `T+61` and hold at `T+30` with unchanged funding sign. -/
theorem C3_amended_close_condition (cfg : LoopCfg) (now T : ℚ)
    (o : GuiObs) (oc : CliObs)
    (hs1 : ¬ oc.side1 = .NONE) (hq1 : 0 < oc.qty1)
    (hp : ¬ o.price ≤ 0) (h1 : o.fetch1.getD 0 ≠ 0) (h2 : o.fetch2.getD 0 ≠ 0)
    (hT : T ≠ 0) :
    ((∃ a b c d, decideCLI cfg (some T) now oc = .closeHedge a b c d)
      ↔ (cfg.wait_seconds ≤ pyInt (now - T)
          ∨ ((oc.side1 = .LONG ∧ 0 < oc.fundingRate)
             ∨ (oc.side1 = .SHORT ∧ oc.fundingRate < 0))))
    ∧ ((∃ a b c d, decideGUI cfg (some T) now o = .closeHedge a b c d)
      ↔ cfg.wait_seconds ≤ pyInt (now - T)) := by
  constructor
  · unfold decideCLI
    rw [if_neg hs1]
    have hm : (match (some T : Option ℚ) with | some t => pyInt (now - t) | none => (0:ℤ))
        = pyInt (now - T) := rfl
    rw [hm]
    by_cases hcond : cfg.wait_seconds ≤ pyInt (now - T)
        ∨ ((oc.side1 = .LONG ∧ 0 < oc.fundingRate)
           ∨ (oc.side1 = .SHORT ∧ oc.fundingRate < 0))
    · rw [if_pos hcond, if_neg (not_le.mpr hq1)]
      refine ⟨fun _ => hcond, fun _ => ?_⟩
      by_cases hl : oc.side1 = .LONG
      · rw [if_pos hl]
        exact ⟨_, _, _, _, rfl⟩
      · rw [if_neg hl]
        exact ⟨_, _, _, _, rfl⟩
    · rw [if_neg hcond]
      refine ⟨?_, fun hc => absurd hc hcond⟩
      rintro ⟨a, b, c, d, hcd⟩
      exact Decision.noConfusion hcd
  · unfold decideGUI
    rw [if_neg hp, if_neg (not_not_intro (iff_of_true h1 h2)),
      if_neg (not_not_intro ⟨h1, h2⟩), if_pos (show (some T).getD 0 ≠ 0 from hT)]
    by_cases htime : cfg.wait_seconds ≤ pyInt (now - (some T).getD 0)
    · rw [if_pos htime, if_pos ⟨h1, h2⟩]
      exact ⟨fun _ => htime, fun _ => ⟨_, _, _, _, rfl⟩⟩
    · rw [if_neg htime]
      refine ⟨?_, fun hc => absurd hc htime⟩
      rintro ⟨a, b, c, d, hcd⟩
      exact Decision.noConfusion hcd

theorem C3_witness :
    ((∃ a b c d,
        decideCLI cfg0 (some 1000) 1061 heldShortObs = .closeHedge a b c d)
      ↔ (cfg0.wait_seconds ≤ pyInt (1061 - 1000)
          ∨ ((heldShortObs.side1 = .LONG ∧ 0 < heldShortObs.fundingRate)
             ∨ (heldShortObs.side1 = .SHORT ∧ heldShortObs.fundingRate < 0))))
    ∧ ((∃ a b c d,
        decideGUI cfg0 (some 1000) 1061 flipHoldObs = .closeHedge a b c d)
      ↔ cfg0.wait_seconds ≤ pyInt (1061 - 1000)) :=
  C3_amended_close_condition cfg0 1061 1000 flipHoldObs heldShortObs
    (by simp [heldShortObs]) (by norm_num [heldShortObs])
    (by norm_num [flipHoldObs]) (by norm_num [flipHoldObs])
    (by norm_num [flipHoldObs]) (by norm_num)

/-- The CLI UI stats record at process start (`TradingUI.__init__`). -/
def cliStats0 : CliStats := ⟨0, 0, none, "", 0, 0, 0, 0, 0, 0, none⟩

/-- C6 counterexample: a CLI open-success update for quantity 0.1 at price
3000 adds 300 USDT — one leg's notional — to the cumulative volume, not
`qty*price*2 = 600`. -/
theorem C6_counterexample :
    (update_stats cliStats0 (1/10000) "ETHUSDT" 20 60 3000 (1/10) true 0 0).total_volume_usdt
      = 300
    ∧ (300 : ℚ) ≠ (1/10) * 3000 * 2 := by
  constructor
  · norm_num [update_stats, cliStats0]
  · norm_num

/-- C6 (amended): on an open where both legs succeed, the GUI coordinator
bumps the trade counter by 1, adds `qty*price*2` to cumulative volume,
stamps `open_time` and the last-trade time with the current time, and
immediately sets both in-memory projections to the opened sides and
quantity; the CLI coordinator bumps the counter and stamps the times but
adds only `qty*price` (a single leg's notional) and leaves the position
projections to the polling threads. -/
theorem C6_amended_open_success (s : GuiState) (cs : CliStats)
    (fr q p now ib : ℚ) (sym : String) (lev : ℕ) (w : ℤ) :
    ((guiOpenSuccess s fr q p now).stats.trade_count = s.stats.trade_count + 1
     ∧ (guiOpenSuccess s fr q p now).stats.total_volume_usdt
         = s.stats.total_volume_usdt + q * p * 2
     ∧ (guiOpenSuccess s fr q p now).stats.position_open_time = some now
     ∧ (guiOpenSuccess s fr q p now).stats.last_trade_time = some now
     ∧ (guiOpenSuccess s fr q p now).st1.position_side
         = (if 0 < fr then .SHORT else .LONG)
     ∧ (guiOpenSuccess s fr q p now).st1.quantity = q
     ∧ (guiOpenSuccess s fr q p now).st1.entry_price = p
     ∧ (guiOpenSuccess s fr q p now).st2.position_side
         = (if 0 < fr then .LONG else .SHORT)
     ∧ (guiOpenSuccess s fr q p now).st2.quantity = q
     ∧ (guiOpenSuccess s fr q p now).st2.entry_price = p)
    ∧ ((update_stats cs fr sym lev w p q true now ib).trade_count
         = cs.trade_count + 1
       ∧ (update_stats cs fr sym lev w p q true now ib).total_volume_usdt
           = cs.total_volume_usdt + q * p
       ∧ (update_stats cs fr sym lev w p q true now ib).position_open_time
           = some now
       ∧ (update_stats cs fr sym lev w p q true now ib).last_trade_time
           = some now) := by
  constructor
  · refine ⟨rfl, rfl, rfl, rfl, rfl, rfl, rfl, rfl, rfl, rfl⟩
  · unfold update_stats
    dsimp only
    split_ifs <;> simp_all

/-- A GUI close cycle whose two accounts have drifted apart: account 1
holds +0.2, account 2 −0.3. -/
def driftGuiObs : GuiObs := ⟨3000, 1/10000, some (2/10), some (-(3/10)), 3000⟩

/-- C7 counterexample: a CLI close cycle whose account snapshots hold
different quantities (account 1: 0.1, account 2: 0.2) submits the same
quantity 0.1 on both legs — the two closing orders share account 1's
quantity. -/
theorem C7_counterexample :
    decideCLI cfg0 (some 1000) 1061 ⟨3000, 1/10000, .SHORT, 1/10, .LONG, 2/10, 3000⟩
      = .closeHedge .BUY (1/10) .SELL (1/10)
    ∧ ((2:ℚ)/10 ≠ 1/10) := by
  constructor
  · norm_num [decideCLI, cfg0, pyInt]
    rw [if_neg (by decide : ¬ (Side.SHORT = Side.NONE)),
      if_neg (by decide : ¬ (Side.SHORT = Side.LONG))]
  · norm_num

/-- C7 (amended): whenever the GUI loop emits `CloseHedge`, each leg's
closing quantity is that account's own observed `positionAmt` magnitude;
whenever the CLI loop emits `CloseHedge`, both legs are sized to account
1's last-known quantity. -/
theorem C7_amended_close_sizing (cfg : LoopCfg) (ot : Option ℚ) (now : ℚ)
    (o : GuiObs) (oc : CliObs)
    (a : OrderSide) (q1 : ℚ) (b : OrderSide) (q2 : ℚ)
    (c : OrderSide) (r1 : ℚ) (d : OrderSide) (r2 : ℚ)
    (hg : decideGUI cfg ot now o = .closeHedge a q1 b q2)
    (hc : decideCLI cfg ot now oc = .closeHedge c r1 d r2) :
    (q1 = |o.fetch1.getD 0| ∧ q2 = |o.fetch2.getD 0|)
    ∧ (r1 = oc.qty1 ∧ r2 = oc.qty1) := by
  constructor
  · unfold decideGUI at hg
    rcases hcalc : calculate_quantity_from_usdt o.qtyPrice cfg.usdt_amount with e | qv <;>
      simp only [hcalc] at hg <;>
      split_ifs at hg
    all_goals
      injection hg with e1 e2 e3 e4
      exact ⟨e2.symm, e4.symm⟩
  · unfold decideCLI at hc
    rcases hcalc : calculate_quantity_from_usdt oc.qtyPrice cfg.usdt_amount with e | qv <;>
      simp only [hcalc] at hc <;>
      split_ifs at hc
    all_goals
      injection hc with e1 e2 e3 e4
      exact ⟨e2.symm, e4.symm⟩

theorem C7_witness :
    (((2:ℚ)/10 = |driftGuiObs.fetch1.getD 0|
       ∧ (3:ℚ)/10 = |driftGuiObs.fetch2.getD 0|)
     ∧ ((1:ℚ)/10 = heldShortObs.qty1 ∧ (1:ℚ)/10 = heldShortObs.qty1)) :=
  C7_amended_close_sizing cfg0 (some 1000) 1061 driftGuiObs heldShortObs
    .SELL (2/10) .BUY (3/10) .BUY (1/10) .SELL (1/10)
    (by norm_num [decideGUI, driftGuiObs, cfg0, pyInt, closingSide])
    (by
      norm_num [decideCLI, heldShortObs, cfg0, pyInt]
      rw [if_neg (by decide : ¬ (Side.SHORT = Side.NONE)),
        if_neg (by decide : ¬ (Side.SHORT = Side.LONG))])

/-- C8 counterexample: one session, two sync-path calls 400 s apart, the
server 120000 ms ahead both times. Both calls discard the remote value and
return local time, and BOTH print the skew warning — the successful fetch
inside each call resets `server_time_warned`, so the warning is not
limited to once per session. -/
theorem C8_counterexample :
    (get_timestamp ⟨0, 0, false⟩ 0 0 (some 120000)).value = 0
    ∧ (get_timestamp ⟨0, 0, false⟩ 0 0 (some 120000)).warnings = 1
    ∧ (get_timestamp
        (get_timestamp ⟨0, 0, false⟩ 0 0 (some 120000)).state
        400 400000 (some 520000)).value = 400000
    ∧ (get_timestamp
        (get_timestamp ⟨0, 0, false⟩ 0 0 (some 120000)).state
        400 400000 (some 520000)).warnings = 1 := by
  norm_num [get_timestamp, get_server_time, timestampSkewCheck]

/-- C8 (amended): on any `_get_timestamp` call that takes the sync path
and whose server fetch succeeds with `|server − local| > 60000` ms, the
remote value is discarded, local time is returned, and the warning is
printed on that very call — the successful fetch resets
`server_time_warned` first, so the once-per-session de-duplication never
suppresses this warning; it only suppresses repeated fetch-failure
warnings. -/
theorem C8_amended_clock_skew (st : ApiTimeState) (localSec : ℚ)
    (localMs serverMs : ℤ)
    (hsync : 300 < localSec - st.last_time_sync ∨ st.last_time_sync = 0)
    (hskew : 60000 < |serverMs - localMs|) :
    (get_timestamp st localSec localMs (some serverMs)).value = localMs
    ∧ (get_timestamp st localSec localMs (some serverMs)).warnings = 1
    ∧ (get_timestamp st localSec localMs (some serverMs)).state.server_time_warned
        = true := by
  unfold get_timestamp
  rw [if_pos hsync]
  unfold get_server_time timestampSkewCheck
  dsimp only
  rw [if_pos hskew]
  simp

theorem C8_witness :
    (300 < (400:ℚ) - 0 ∨ (0:ℚ) = 0)
    ∧ (60000 < |(520000:ℤ) - 400000|)
    ∧ (get_timestamp ⟨120000, 0, true⟩ 400 400000 (some 520000)).value = 400000
    ∧ (get_timestamp ⟨120000, 0, true⟩ 400 400000 (some 520000)).warnings = 1
    ∧ (get_timestamp ⟨120000, 0, true⟩ 400 400000
        (some 520000)).state.server_time_warned = true := by
  refine ⟨by norm_num, by norm_num, ?_⟩
  have h := C8_amended_clock_skew ⟨120000, 0, true⟩ 400 400000 520000
    (by norm_num) (by norm_num)
  exact ⟨h.1, h.2.1, h.2.2⟩

end PerpDex
